import Mathlib

/-!
# Verification of the Multi-Agent-Meeting-Scheduler core

Shallow embedding of the scheduling core of the repository:

* `src/src/agents/scheduler_agent/scheduler_agent.py` — availability check and
  slot search (`_check_availability`, `find_next_available_time`);
* `src/src/agents/scheduler_agent/entry.py` — the `/schedule` endpoint;
* `src/src/agents/calendar_agent/calendar_agent.py` and
  `src/src/agents/calendar_agent/entry.py` — meeting creation and the
  `/create-meeting` endpoint;
* `src/src/agents/calendar_agent/google_calendar_service.py` — the recurring
  event date computation (`create_recurring_event`);
* `src/src/agents/host_agent/entry.py` (and the identical control flow in
  `src/src/main.py`) — the `/schedule-meeting` orchestration.

Time model: local wall-clock time in the request's timezone is modelled as a
number of seconds (`Nat`) since a reference Monday 00:00, at second
granularity and with linear (DST-free) arithmetic.  With that convention
`hourOf` and `weekdayOf` agree with Python's `datetime.hour` and
`datetime.weekday()` (Monday = 0 .. Sunday = 6).  Calendar dates (for the
recurring planner) are modelled as `Int` days since a reference Monday;
Lean's `Int.emod` agrees with Python's `%` on a positive modulus.

External collaborators are parameters of the embedding: the Google free/busy
fetch is an oracle that either returns per-participant busy intervals or
fails (covering both transport and parse exceptions), and event creation is
an oracle returning an event id or an error.
-/

/-- Wall-clock hour of a time `t` in seconds (Python `current_time.hour`). -/
def hourOf (t : Nat) : Nat := t / 3600 % 24

/-- Weekday of a time `t` in seconds, Monday = 0 .. Sunday = 6
(Python `current_time.weekday()`; the reference instant 0 is a Monday). -/
def weekdayOf (t : Nat) : Nat := t / 86400 % 7

/-- One busy interval of a participant, as reported by the free/busy query
(`scheduler_agent.py` lines 71-74: `slot['start']`, `slot['end']`).
The field `stop` embeds the source's `end` (a Lean keyword). -/
structure BusyInterval where
  start : Int
  stop : Int
deriving DecidableEq, Repr

/-- The parsed free/busy payload: an association of participant id to the
participant's busy intervals (`free_busy[participant]['busy']`). -/
def FreeBusy := List (String × List BusyInterval)

/-- Dictionary lookup `free_busy[participant].get('busy', [])` guarded by
`if participant in free_busy` (`scheduler_agent.py` lines 70-71); a
participant absent from the dictionary contributes no busy intervals. -/
def busyOf (fb : FreeBusy) (p : String) : List BusyInterval :=
  match fb with
  | [] => []
  | (q, bs) :: rest => if q = p then bs else busyOf rest p

/-- The overlap test of `_check_availability` (`scheduler_agent.py` line 76):
`start_time < slot_end and end_time > slot_start`. -/
def conflictsWith (s e : Int) (b : BusyInterval) : Bool :=
  decide (s < b.stop) && decide (e > b.start)

/-- The nested participant/slot loops of `_check_availability`
(`scheduler_agent.py` lines 69-79) applied to an already fetched and parsed
free/busy payload: `true` iff no busy interval of any listed participant
overlaps the candidate `[s, e)`. -/
def checkAvailabilityFetched (participants : List String) (s e : Int)
    (fb : FreeBusy) : Bool :=
  !(participants.any fun p => (busyOf fb p).any (conflictsWith s e))

/-- `_check_availability` (`scheduler_agent.py` lines 41-83).  The free/busy
fetch *and* the ISO-timestamp parsing are an oracle `fetch`; an `Except.error`
models any exception raised in the `try` block, which the source answers with
`return True` (lines 80-83).  `calendarAvailable = false` models the agent
constructed without a calendar service (lines 58-60). -/
def checkAvailability (calendarAvailable : Bool)
    (fetch : Int → Int → Except String FreeBusy)
    (participants : List String) (s e : Int) : Bool :=
  if calendarAvailable = false then true
  else
    match fetch s e with
    | Except.error _ => true
    | Except.ok fb => checkAvailabilityFetched participants s e fb

/-- Outcome of examining one candidate start time in the search loop of
`find_next_available_time`: either skip to a later time, or test the slot
`[slotStart, slotEnd)` for conflicts, advancing to `next` if it is busy. -/
inductive StepResult where
  | skip (next : Nat)
  | check (slotStart : Nat) (slotEnd : Int) (next : Nat)
deriving DecidableEq, Repr

/-- The branch structure of one iteration of the search loop
(`scheduler_agent.py` lines 109-130), in source order:
1. hours outside 9-17 advance by 30 minutes (lines 111-113);
2. weekends jump to the next day at 09:00:00.000000 (lines 116-119);
3. otherwise the slot `[t, t + duration)` is conflict-tested and on a
   conflict the search advances by 30 minutes (lines 121-130). -/
def stepCandidate (t : Nat) (dur : Int) : StepResult :=
  if hourOf t < 9 ∨ 17 ≤ hourOf t then
    StepResult.skip (t + 1800)
  else if 5 ≤ weekdayOf t then
    StepResult.skip ((t / 86400 + 1) * 86400 + 9 * 3600)
  else
    StepResult.check t ((t : Int) + 60 * dur) (t + 1800)

/-- Result of `find_next_available_time`: the success payload carries the
returned `available_time` (the candidate start). -/
inductive FindResult where
  | success (startTime : Nat)
  | noSlot
deriving DecidableEq, Repr

/-- The `while current_time < end_time` loop of `find_next_available_time`
(`scheduler_agent.py` lines 109-135), with an explicit fuel.  Every
iteration advances the candidate by at least 1800 seconds
(`stepCandidate_next_ge`), so fuel `337` always outlasts the 7-day horizon
and the fuel-exhaustion branch coincides with the horizon-exhaustion
result `noSlot`. -/
def findLoop (avail : Nat → Int → Bool) (dur : Int) (horizonEnd : Nat) :
    Nat → Nat → FindResult
  | 0, _ => FindResult.noSlot
  | fuel + 1, t =>
    if horizonEnd ≤ t then FindResult.noSlot
    else
      match stepCandidate t dur with
      | StepResult.skip next => findLoop avail dur horizonEnd fuel next
      | StepResult.check s e next =>
        if avail s e then FindResult.success s
        else findLoop avail dur horizonEnd fuel next

/-- The availability oracle the search loop consults: `_check_availability`
for the given agent state and participants. -/
def availOracle (calendarAvailable : Bool)
    (fetch : Int → Int → Except String FreeBusy)
    (participants : List String) (t : Nat) (e : Int) : Bool :=
  checkAvailability calendarAvailable fetch participants (t : Int) e

/-- `find_next_available_time` (`scheduler_agent.py` lines 85-140): search
from `now` over a 7-day horizon (line 107) in 30-minute steps.  `dur` is
`duration_minutes`. -/
def findNextAvailableTime (calendarAvailable : Bool)
    (fetch : Int → Int → Except String FreeBusy)
    (participants : List String) (dur : Int) (now : Nat) : FindResult :=
  findLoop (availOracle calendarAvailable fetch participants) dur
    (now + 604800) 337 now

/-- Each loop iteration advances the candidate by at least one 30-minute
step, so the fuel of `findNextAvailableTime` outlasts the horizon. -/
lemma stepCandidate_next_ge (t : Nat) (dur : Int) :
    (∀ n, stepCandidate t dur = StepResult.skip n → t + 1800 ≤ n) ∧
    (∀ s e n, stepCandidate t dur = StepResult.check s e n → t + 1800 ≤ n) := by
  unfold stepCandidate
  split_ifs with h1 h2
  · refine ⟨fun n hn => ?_, fun s e n hn => ?_⟩
    · cases hn
      omega
    · cases hn
  · refine ⟨fun n hn => ?_, fun s e n hn => ?_⟩
    · cases hn
      simp only [hourOf] at h1
      omega
    · cases hn
  · refine ⟨fun n hn => ?_, fun s e n hn => ?_⟩
    · cases hn
    · cases hn
      omega

/-- Inversion for the conflict-testing branch: a candidate is only
conflict-tested when its start hour is inside business hours and its weekday
is a weekday, and the tested slot starts at the candidate time. -/
lemma stepCandidate_check_inv (t : Nat) (dur : Int) (s : Nat) (e : Int) (n : Nat)
    (h : stepCandidate t dur = StepResult.check s e n) :
    s = t ∧ e = (t : Int) + 60 * dur ∧ n = t + 1800 ∧
      9 ≤ hourOf t ∧ hourOf t < 17 ∧ weekdayOf t < 5 := by
  unfold stepCandidate at h
  split_ifs at h with h1 h2
  cases h
  push_neg at h1 h2
  exact ⟨rfl, rfl, rfl, h1.1, h1.2, h2⟩

/-- Any successful slot of the search loop was produced by the
conflict-testing branch, hence lies inside business hours on a weekday. -/
lemma findLoop_success_inv (avail : Nat → Int → Bool) (dur : Int)
    (horizonEnd : Nat) :
    ∀ fuel t s, findLoop avail dur horizonEnd fuel t = FindResult.success s →
      9 ≤ hourOf s ∧ hourOf s < 17 ∧ weekdayOf s < 5 := by
  intro fuel
  induction fuel with
  | zero => intro t s h; cases h
  | succ k ih =>
    intro t s h
    unfold findLoop at h
    by_cases hend : horizonEnd ≤ t
    · rw [if_pos hend] at h
      cases h
    · rw [if_neg hend] at h
      cases hstep : stepCandidate t dur with
      | skip next =>
        rw [hstep] at h
        exact ih next s h
      | check s0 e0 n0 =>
        rw [hstep] at h
        have h' : (if avail s0 e0 = true then FindResult.success s0
            else findLoop avail dur horizonEnd k n0) = FindResult.success s := h
        by_cases hav : avail s0 e0 = true
        · rw [if_pos hav] at h'
          rcases stepCandidate_check_inv t dur s0 e0 n0 hstep with
            ⟨rfl, _, _, h9, h17, hw⟩
          cases h'
          exact ⟨h9, h17, hw⟩
        · rw [if_neg hav] at h'
          exact ih n0 s h'

/-- Model of the external `pytz` timezone registry: `pytz.timezone(name)`
succeeds iff `name` is in the IANA zone database and raises
`UnknownTimeZoneError` otherwise (`scheduler_agent/entry.py` lines 50-56,
`calendar_agent/entry.py` lines 45-51).  The embedding carries the finite
fragment of the registry that this development exercises; any name outside
the database (such as the deliberately malformed names below) is invalid. -/
def knownTimezones : List String :=
  ["UTC", "America/New_York", "Europe/London", "Asia/Kolkata", "US/Pacific"]

/-- Whether `pytz.timezone` accepts the zone name. -/
def validTz (tz : String) : Bool := knownTimezones.contains tz

/-- A meeting request as received by `/schedule-meeting` and forwarded
verbatim to `/schedule` (`host_agent/entry.py` lines 40-46). -/
structure MeetingRequest where
  title : String
  participants : List String
  description : String
  durationMinutes : Int
  timezone : String
deriving DecidableEq, Repr

/-- The scheduler service's `/schedule` response body
(`scheduler_agent/entry.py` lines 35-44), paired with the HTTP status code
observed by the orchestrator's `httpx` call. -/
structure SchedulerResp where
  statusCode : Nat
  success : Bool
  message : Option String
  startTime : Option Nat := none
  endTime : Option Int := none
deriving DecidableEq, Repr

/-- The calendar service's `/create-meeting` response body
(`calendar_agent/entry.py` lines 36-39), paired with the HTTP status code. -/
structure CalendarResp where
  statusCode : Nat
  success : Bool
  message : Option String
  meetingId : Option String := none
deriving DecidableEq, Repr

/-- The degraded-mode suffix appended to scheduler messages when the
calendar service is unavailable (`scheduler_agent/entry.py` lines 67-68,
83-84). -/
def schedulerDegradedSuffix (calendarAvailable : Bool) : String :=
  if calendarAvailable then ""
  else " (Calendar service is not available - using default scheduling)"

/-- The `/schedule` endpoint (`scheduler_agent/entry.py` lines 46-105):
validate the timezone with `pytz.timezone`, then run
`find_next_available_time` and turn its result into a `ScheduleResponse`.
FastAPI answers status 200 on every returned response model. -/
def scheduleEndpoint (calendarAvailable : Bool)
    (fetch : Int → Int → Except String FreeBusy)
    (now : Nat) (req : MeetingRequest) : SchedulerResp :=
  if validTz req.timezone = false then
    { statusCode := 200, success := false,
      message := some ("Invalid timezone: " ++ req.timezone) }
  else
    match findNextAvailableTime calendarAvailable fetch req.participants
        req.durationMinutes now with
    | FindResult.success t =>
      { statusCode := 200, success := true,
        message := some ("Available time slot found" ++
          schedulerDegradedSuffix calendarAvailable),
        startTime := some t,
        endTime := some ((t : Int) + 60 * req.durationMinutes) }
    | FindResult.noSlot =>
      { statusCode := 200, success := false,
        message := some ("No available time slots found in the next 7 days" ++
          schedulerDegradedSuffix calendarAvailable) }

/-- An exception raised by `GoogleCalendarService.create_event`, as
distinguished by `CalendarAgent.create_meeting`'s handlers
(`calendar_agent/calendar_agent.py` lines 87-94). -/
inductive CreateErr where
  | fileNotFound
  | other
deriving DecidableEq, Repr

/-- `CalendarAgent.create_meeting` (`calendar_agent/calendar_agent.py`
lines 45-94).  `nowStr` is the decimal rendering of
`datetime.now().timestamp()`; `createResult` is the oracle for the external
`create_event` call.  Returns the meeting id together with the agent's
`calendar_available` flag after the call (a `FileNotFoundError` flips it to
`False`, lines 87-90). -/
def createMeetingAgent (calendarAvailable : Bool)
    (createResult : Except CreateErr String) (nowStr : String) :
    String × Bool :=
  if calendarAvailable = false then
    ("mock_meeting_" ++ nowStr, false)
  else
    match createResult with
    | Except.ok eventId => (eventId, true)
    | Except.error CreateErr.fileNotFound => ("mock_meeting_" ++ nowStr, false)
    | Except.error CreateErr.other => ("mock_meeting_" ++ nowStr, true)

/-- The `/create-meeting` response body (`calendar_agent/entry.py`
lines 36-39). -/
structure CreateMeetingResponse where
  success : Bool
  message : String
  meetingId : Option String := none
deriving DecidableEq, Repr

/-- The `/create-meeting` endpoint (`calendar_agent/entry.py` lines 41-79):
validate the timezone, call `create_meeting`, and answer `success=true`
with a message that notes degraded mode when the agent's
`calendar_available` flag is down after the call (lines 63-65). -/
def createMeetingEndpoint (calendarAvailable : Bool)
    (createResult : Except CreateErr String) (nowStr : String)
    (tz : String) : CreateMeetingResponse :=
  if validTz tz = false then
    { success := false, message := "Invalid timezone: " ++ tz }
  else
    let result := createMeetingAgent calendarAvailable createResult nowStr
    { success := true,
      message := "Meeting created successfully" ++
        (if result.2 then ""
         else " (Calendar service is not available - using mock meeting ID)"),
      meetingId := some result.1 }

/-- The orchestrator's `/schedule-meeting` response
(`host_agent/entry.py` lines 48-54).  The `updates` trace records the
`agent_id` of each appended per-delegate outcome record, in call order. -/
structure OrchResponse where
  success : Bool
  message : String
  meetingId : Option String := none
  startTime : Option Nat := none
  endTime : Option Int := none
  updates : List String := []
deriving DecidableEq, Repr

/-- One orchestration attempt: the response together with which delegates
were actually contacted (for the call-count assertions of the spec). -/
structure OrchOutcome where
  response : OrchResponse
  schedulerInvoked : Bool
  calendarInvoked : Bool
deriving DecidableEq, Repr

/-- The `/schedule-meeting` orchestration (`host_agent/entry.py`
lines 56-144; `src/main.py` lines 30-74 is the same control flow without
the `updates` trace).  The scheduler delegate is contacted
unconditionally; the calendar delegate only after a 200/"success"
scheduler response, with the resolved slot.  `scheduler` and `calendar`
are the delegate-call oracles (`client.post` results); the booleans record
which delegates were invoked. -/
def scheduleMeetingOrch (req : MeetingRequest)
    (scheduler : MeetingRequest → SchedulerResp)
    (calendar : Nat → Int → CalendarResp) : OrchOutcome :=
  let sched := scheduler req
  if sched.statusCode ≠ 200 ∨ sched.success = false then
    { response :=
        { success := false,
          message := sched.message.getD "No available time slot found.",
          updates := ["scheduler"] },
      schedulerInvoked := true, calendarInvoked := false }
  else
    let s := sched.startTime.getD 0
    let e := sched.endTime.getD 0
    let cal := calendar s e
    if cal.statusCode ≠ 200 ∨ cal.success = false then
      { response :=
          { success := false,
            message := cal.message.getD "Failed to create meeting.",
            updates := ["scheduler", "calendar"] },
        schedulerInvoked := true, calendarInvoked := true }
    else
      { response :=
          { success := true,
            message := "Meeting scheduled successfully.",
            meetingId := cal.meetingId,
            startTime := some s, endTime := some e,
            updates := ["scheduler", "calendar"] },
        schedulerInvoked := true, calendarInvoked := true }

/-- Wrap a `/create-meeting` response as the delegate result seen by the
orchestrator (FastAPI answers status 200 on every returned model). -/
def calendarRespOf (r : CreateMeetingResponse) : CalendarResp :=
  { statusCode := 200, success := r.success, message := some r.message,
    meetingId := r.meetingId }

/-- The deployed system: `/schedule-meeting` wired to the real `/schedule`
and `/create-meeting` endpoints.  `schedCalAvailable` and
`calAgentCalAvailable` are the two agents' independent
`calendar_available` flags; `fetch`, `createResult` and `nowStr` are the
external-world oracles; `now` is the search start time. -/
def fullPipeline (schedCalAvailable calAgentCalAvailable : Bool)
    (fetch : Int → Int → Except String FreeBusy)
    (createResult : Except CreateErr String) (nowStr : String)
    (now : Nat) (req : MeetingRequest) : OrchOutcome :=
  scheduleMeetingOrch req
    (fun r => scheduleEndpoint schedCalAvailable fetch now r)
    (fun _ _ => calendarRespOf
      (createMeetingEndpoint calAgentCalAvailable createResult nowStr
        req.timezone))

/-- Weekday of a calendar date, Monday = 0 .. Sunday = 6; dates are `Int`
days since a reference Monday (Python `date.weekday()`; `Int.emod` agrees
with Python `%` on the positive modulus 7). -/
def dateWeekday (d : Int) : Int := d % 7

/-- The base-date computation of `create_recurring_event`
(`google_calendar_service.py` lines 203-208): `days_ahead` from the anchor
date's weekday to the first preferred day, bumped by 7 when `≤ 0`. -/
def recurringBaseDate (anchor : Int) (target : Int) : Int :=
  let daysAhead := target - dateWeekday anchor
  let daysAhead := if daysAhead ≤ 0 then daysAhead + 7 else daysAhead
  anchor + daysAhead

/-- The per-occurrence date computation of `create_recurring_event`
(`google_calendar_service.py` lines 215-218): `days_ahead` from the base
date's weekday to the given day, bumped by 7 when `< 0` (note the strict
comparison, unlike the base date), plus `week * 7`. -/
def occurrenceDate (base : Int) (dayNum : Int) (week : Nat) : Int :=
  let daysAhead := dayNum - dateWeekday base
  let daysAhead := if daysAhead < 0 then daysAhead + 7 else daysAhead
  base + daysAhead + (week : Int) * 7

/-- The inner `for day in preferred_days` loop of `create_recurring_event`
for one week (`google_calendar_service.py` lines 213-218). -/
def weekOccurrences (base : Int) (preferredDays : List Int) (week : Nat) :
    List Int :=
  preferredDays.map fun d => occurrenceDate base d week

/-- The `for week in range(weeks)` loop (`google_calendar_service.py`
lines 212-218), appending each week's occurrence dates in order. -/
def recurringDatesAux (base : Int) (preferredDays : List Int) :
    Nat → List Int
  | 0 => []
  | w + 1 =>
    recurringDatesAux base preferredDays w ++
      weekOccurrences base preferredDays w

/-- The sequence of occurrence dates emitted by `create_recurring_event`
(`google_calendar_service.py` lines 203-218): preferred days are given as
weekday numbers (the image of `day_to_number`, lines 193-201). -/
def recurringEventDates (anchor : Int) (preferredDays : List Int)
    (weeks : Nat) : List Int :=
  recurringDatesAux (recurringBaseDate anchor (preferredDays.headD 0))
    preferredDays weeks

/-- Modelled from the spec (claim comparison definition): "for week 0, the
first emitted occurrence is the next calendar date on/after the anchor date
matching `preferred_days[0]`" — the least date `≥ anchor` whose weekday is
`target`. -/
def nextOnOrAfterDate (anchor : Int) (target : Int) : Int :=
  anchor + (target - dateWeekday anchor) % 7

/-- A sample well-formed meeting request used by concrete witnesses. -/
def sampleRequest : MeetingRequest :=
  { title := "sync", participants := ["alice@example.com"],
    description := "weekly sync", durationMinutes := 30, timezone := "UTC" }

/-- A scheduler delegate response reporting no available slot. -/
def noSlotSchedResp : SchedulerResp :=
  { statusCode := 200, success := false,
    message := some "No available time slots found in the next 7 days" }

/-- A calendar delegate response reporting successful creation. -/
def okCalendarResp : CalendarResp :=
  { statusCode := 200, success := true, message := none,
    meetingId := some "evt-1" }

/-- A free/busy oracle that always succeeds with no busy intervals. -/
def emptyFetch : Int → Int → Except String FreeBusy :=
  fun _ _ => Except.ok []

/-- Claim C1: for every scheduling request whose scheduler delegate call
returns a non-success response (a non-200 status or `success=false`,
including no slot found), the orchestrator's `/schedule-meeting` returns
`success=false` and the calendar delegate is never invoked during that
orchestration attempt. -/
theorem c1_scheduler_failure_short_circuits (req : MeetingRequest)
    (scheduler : MeetingRequest → SchedulerResp)
    (calendar : Nat → Int → CalendarResp)
    (h : (scheduler req).statusCode ≠ 200 ∨ (scheduler req).success = false) :
    (scheduleMeetingOrch req scheduler calendar).response.success = false ∧
    (scheduleMeetingOrch req scheduler calendar).calendarInvoked = false := by
  have hres : scheduleMeetingOrch req scheduler calendar =
      { response :=
          { success := false,
            message := (scheduler req).message.getD
              "No available time slot found.",
            updates := ["scheduler"] },
        schedulerInvoked := true, calendarInvoked := false } := by
    simp only [scheduleMeetingOrch]
    rw [if_pos h]
  rw [hres]
  exact ⟨rfl, rfl⟩

/-- Witness for C1: a concrete no-slot-found scheduler response
short-circuits the orchestration. -/
theorem c1_witness :
    (scheduleMeetingOrch sampleRequest (fun _ => noSlotSchedResp)
      (fun _ _ => okCalendarResp)).response.success = false ∧
    (scheduleMeetingOrch sampleRequest (fun _ => noSlotSchedResp)
      (fun _ _ => okCalendarResp)).calendarInvoked = false :=
  c1_scheduler_failure_short_circuits sampleRequest
    (fun _ => noSlotSchedResp) (fun _ _ => okCalendarResp) (Or.inr rfl)

/-- Claim C2: every slot returned as `success` by the slot finder starts
with `9 ≤ hour < 17` on a weekday that is neither Saturday nor Sunday. -/
theorem c2_returned_slot_in_business_hours (calendarAvailable : Bool)
    (fetch : Int → Int → Except String FreeBusy)
    (participants : List String) (dur : Int) (now t : Nat)
    (h : findNextAvailableTime calendarAvailable fetch participants dur now =
      FindResult.success t) :
    9 ≤ hourOf t ∧ hourOf t < 17 ∧ weekdayOf t ≠ 5 ∧ weekdayOf t ≠ 6 := by
  have hs := findLoop_success_inv
    (availOracle calendarAvailable fetch participants) dur (now + 604800)
    337 now t h
  exact ⟨hs.1, hs.2.1, by omega, by omega⟩

/-- Witness for C2: a slot actually returned by the finder (Monday 10:00)
satisfies the business-hours and weekday constraints. -/
theorem c2_witness :
    9 ≤ hourOf 36000 ∧ hourOf 36000 < 17 ∧
    weekdayOf 36000 ≠ 5 ∧ weekdayOf 36000 ≠ 6 :=
  c2_returned_slot_in_business_hours false emptyFetch ["alice@example.com"]
    30 36000 36000 (by decide)

/-- Claim C3: the fetched-data availability check reports a conflict
(returns `false`) iff some busy interval `b` of a listed participant
satisfies `candidate.start < b.end` and `candidate.end > b.start`; in
particular boundary-touching candidates (ending exactly at `b.start`, or
starting exactly at `b.end`) are never conflicts. -/
theorem c3_conflict_iff (participants : List String) (s e : Int)
    (fb : FreeBusy) :
    (checkAvailabilityFetched participants s e fb = false ↔
      ∃ p ∈ participants, ∃ b ∈ busyOf fb p, s < b.stop ∧ e > b.start) ∧
    (∀ b : BusyInterval, conflictsWith s b.start b = false) ∧
    (∀ b : BusyInterval, conflictsWith b.stop e b = false) := by
  refine ⟨?_, ?_, ?_⟩
  · simp [checkAvailabilityFetched, List.any_eq_true, conflictsWith,
      Bool.and_eq_true, decide_eq_true_eq]
  · intro b
    simp [conflictsWith]
  · intro b
    simp [conflictsWith]

/-- A request with an empty participant set (the claim says it must be
rejected before any delegate call). -/
def emptyParticipantsRequest : MeetingRequest :=
  { title := "standup", participants := [], description := "daily",
    durationMinutes := 30, timezone := "UTC" }

/-- A request with a malformed timezone name. -/
def invalidTzRequest : MeetingRequest :=
  { title := "sync", participants := ["alice@example.com"],
    description := "", durationMinutes := 30, timezone := "Mars/Olympus" }

/-- Counterexample to C4: a request with an empty participant set is not
rejected before any delegate call — starting the search on a Monday at
10:00, the deployed pipeline contacts the scheduler delegate, then the
calendar delegate, and schedules the meeting with `success=true`. -/
theorem c4_counterexample :
    (fullPipeline false false emptyFetch (Except.ok "evt-1") "1712000000.0"
      36000 emptyParticipantsRequest).schedulerInvoked = true ∧
    (fullPipeline false false emptyFetch (Except.ok "evt-1") "1712000000.0"
      36000 emptyParticipantsRequest).calendarInvoked = true ∧
    (fullPipeline false false emptyFetch (Except.ok "evt-1") "1712000000.0"
      36000 emptyParticipantsRequest).response.success = true := by
  refine ⟨rfl, rfl, rfl⟩

/-- Claim C4, amended: no validation happens before delegate calls — the
scheduler delegate is contacted for every request (malformed timezone,
empty participants and non-positive duration included).  A malformed
timezone is rejected inside the scheduler service, which answers
`success=false`, so the orchestrator returns `success=false` and the
calendar delegate is not contacted; empty participant sets and
non-positive durations are not rejected at all. -/
theorem c4_amended (req : MeetingRequest) (sa ca : Bool)
    (fetch : Int → Int → Except String FreeBusy)
    (createResult : Except CreateErr String) (nowStr : String) (now : Nat) :
    (fullPipeline sa ca fetch createResult nowStr now req).schedulerInvoked =
      true ∧
    (validTz req.timezone = false →
      (fullPipeline sa ca fetch createResult nowStr now req).response.success
        = false ∧
      (fullPipeline sa ca fetch createResult nowStr now req).calendarInvoked
        = false) := by
  constructor
  · simp only [fullPipeline, scheduleMeetingOrch]
    split_ifs <;> rfl
  · intro h
    have hsched : scheduleEndpoint sa fetch now req =
        { statusCode := 200, success := false,
          message := some ("Invalid timezone: " ++ req.timezone) } := by
      unfold scheduleEndpoint
      rw [if_pos h]
    have hres : fullPipeline sa ca fetch createResult nowStr now req =
        { response :=
            { success := false,
              message := "Invalid timezone: " ++ req.timezone,
              updates := ["scheduler"] },
          schedulerInvoked := true, calendarInvoked := false } := by
      simp only [fullPipeline, scheduleMeetingOrch]
      rw [hsched]
      rw [if_pos (Or.inr rfl)]
      rfl
    rw [hres]
    exact ⟨rfl, rfl⟩

/-- Witness for the amended C4: a concrete malformed-timezone request is
forwarded to the scheduler delegate, rejected there, and the calendar
delegate stays uncontacted. -/
theorem c4_witness :
    (fullPipeline false false emptyFetch (Except.ok "evt-1") "1712000000.0"
      36000 invalidTzRequest).schedulerInvoked = true ∧
    ((fullPipeline false false emptyFetch (Except.ok "evt-1") "1712000000.0"
      36000 invalidTzRequest).response.success = false ∧
     (fullPipeline false false emptyFetch (Except.ok "evt-1") "1712000000.0"
      36000 invalidTzRequest).calendarInvoked = false) :=
  ⟨(c4_amended invalidTzRequest false false emptyFetch (Except.ok "evt-1")
      "1712000000.0" 36000).1,
   (c4_amended invalidTzRequest false false emptyFetch (Except.ok "evt-1")
      "1712000000.0" 36000).2 (by decide)⟩

/-- Counterexample to C5: at a Saturday 08:00 candidate (weekday 5, hour 8)
the search advances by one 30-minute step and stays on Saturday; it does
not jump to the next day at 09:00 as the claim requires, because the
business-hours test runs before the weekday test. -/
theorem c5_counterexample :
    weekdayOf 460800 = 5 ∧ hourOf 460800 = 8 ∧
    stepCandidate 460800 30 = StepResult.skip (460800 + 1800) ∧
    460800 + 1800 ≠ (460800 / 86400 + 1) * 86400 + 9 * 3600 := by
  decide

/-- Claim C5, amended: in the slot search loop the business-hours test is
applied first — a candidate whose hour is outside `[9, 17)` advances by one
step regardless of weekday; only a candidate inside business hours that
falls on Saturday or Sunday jumps to the next day at 09:00; and no
candidate on a weekend is ever conflict-tested. -/
theorem c5_amended (t : Nat) (dur : Int) :
    (hourOf t < 9 ∨ 17 ≤ hourOf t →
      stepCandidate t dur = StepResult.skip (t + 1800)) ∧
    (9 ≤ hourOf t → hourOf t < 17 → 5 ≤ weekdayOf t →
      stepCandidate t dur =
        StepResult.skip ((t / 86400 + 1) * 86400 + 9 * 3600)) ∧
    (5 ≤ weekdayOf t →
      ∀ s e n, stepCandidate t dur ≠ StepResult.check s e n) := by
  unfold stepCandidate
  split_ifs with h1 h2
  · refine ⟨fun _ => rfl, fun h9 h17 _ => ?_, fun _ s e n hne => ?_⟩
    · rcases h1 with h | h <;> omega
    · cases hne
  · refine ⟨fun hc => absurd hc h1, fun _ _ _ => rfl,
      fun _ s e n hne => ?_⟩
    cases hne
  · exact ⟨fun hc => absurd hc h1, fun _ _ hw => absurd hw h2,
      fun hw => absurd hw h2⟩

/-- Witness for the amended C5: concrete candidates exercising all three
branches — Saturday 08:00 steps by 30 minutes, Saturday 10:00 jumps to
Sunday 09:00, and Saturday 10:00 is never conflict-tested. -/
theorem c5_witness :
    stepCandidate 460800 30 = StepResult.skip (460800 + 1800) ∧
    stepCandidate 468000 30 =
      StepResult.skip ((468000 / 86400 + 1) * 86400 + 9 * 3600) ∧
    stepCandidate 468000 30 ≠ StepResult.check 0 0 0 :=
  ⟨(c5_amended 460800 30).1 (Or.inl (by decide)),
   (c5_amended 468000 30).2.1 (by decide) (by decide) (by decide),
   (c5_amended 468000 30).2.2 (by decide) 0 0 0⟩

/-- Counterexample to C6: a Saturday 10:00 candidate starts inside business
hours but is not conflict-tested — the loop jumps it to Sunday 09:00, and a
search started there (with every participant free) returns Monday 09:00,
never that candidate. -/
theorem c6_counterexample :
    9 ≤ hourOf 468000 ∧ hourOf 468000 < 17 ∧
    stepCandidate 468000 30 = StepResult.skip 550800 ∧
    findNextAvailableTime false emptyFetch ["alice@example.com"] 30 468000 =
      FindResult.success 637200 ∧
    (637200 : Nat) ≠ 468000 := by
  decide

/-- Claim C6, amended: the slot finder gates only the candidate's start
time by business hours — for every duration, a non-weekend candidate whose
start hour lies inside `[9, 17)` is conflict-tested, and when available it
is returned as the successful slot even though
`candidate_start + duration_minutes` crosses the 17:00 boundary. -/
theorem c6_amended (calendarAvailable : Bool)
    (fetch : Int → Int → Except String FreeBusy)
    (participants : List String) (dur : Int) (now : Nat)
    (h9 : 9 ≤ hourOf now) (h17 : hourOf now < 17)
    (hwd : weekdayOf now < 5)
    (hcross : (61200 : Int) < (now % 86400 : Nat) + 60 * dur)
    (hav : checkAvailability calendarAvailable fetch participants
      (now : Int) ((now : Int) + 60 * dur) = true) :
    stepCandidate now dur =
      StepResult.check now ((now : Int) + 60 * dur) (now + 1800) ∧
    findNextAvailableTime calendarAvailable fetch participants dur now =
      FindResult.success now := by
  have hstep : stepCandidate now dur =
      StepResult.check now ((now : Int) + 60 * dur) (now + 1800) := by
    unfold stepCandidate
    rw [if_neg (by omega), if_neg (by omega)]
  refine ⟨hstep, ?_⟩
  unfold findNextAvailableTime
  show findLoop (availOracle calendarAvailable fetch participants) dur
    (now + 604800) (336 + 1) now = FindResult.success now
  unfold findLoop
  rw [if_neg (by omega), hstep]
  show (if availOracle calendarAvailable fetch participants now
      ((now : Int) + 60 * dur) = true then
        FindResult.success now
      else findLoop (availOracle calendarAvailable fetch participants) dur
        (now + 604800) 336 (now + 1800)) = FindResult.success now
  have hav2 : availOracle calendarAvailable fetch participants now
      ((now : Int) + 60 * dur) = true := hav
  rw [if_pos hav2]

/-- Witness for the amended C6: a Friday 16:30 candidate with a 120-minute
duration (ending 18:30, past closing) is conflict-tested and returned. -/
theorem c6_witness :
    stepCandidate 405000 120 =
      StepResult.check 405000 ((405000 : Int) + 60 * 120) (405000 + 1800) ∧
    findNextAvailableTime false emptyFetch ["alice@example.com"] 120 405000 =
      FindResult.success 405000 :=
  c6_amended false emptyFetch ["alice@example.com"] 120 405000
    (by decide) (by decide) (by decide) (by decide) (by decide)

/-- Counterexample to C7: with the calendar gateway unavailable, a
`/create-meeting` request whose timezone is malformed is answered with
`success=false`, not the claimed unconditional `success=true`. -/
theorem c7_counterexample :
    (createMeetingEndpoint false (Except.ok "evt-1") "1700000000.0"
      "Invalid/Zone").success = false := by
  decide

/-- Claim C7, amended: whenever the calendar gateway is unavailable, a
`/create-meeting` request with a valid timezone is answered `success=true`,
with `meeting_id` formatted as `mock_meeting_<unix-timestamp>` and a
message noting the degraded mode. -/
theorem c7_amended (createResult : Except CreateErr String)
    (nowStr tz : String) (h : validTz tz = true) :
    (createMeetingEndpoint false createResult nowStr tz).success = true ∧
    (createMeetingEndpoint false createResult nowStr tz).meetingId =
      some ("mock_meeting_" ++ nowStr) ∧
    (createMeetingEndpoint false createResult nowStr tz).message =
      "Meeting created successfully" ++
        " (Calendar service is not available - using mock meeting ID)" := by
  have hres : createMeetingEndpoint false createResult nowStr tz =
      { success := true,
        message := "Meeting created successfully" ++
          " (Calendar service is not available - using mock meeting ID)",
        meetingId := some ("mock_meeting_" ++ nowStr) } := by
    unfold createMeetingEndpoint
    rw [if_neg (by simp [h])]
    rfl
  rw [hres]
  exact ⟨rfl, rfl, rfl⟩

/-- Witness for the amended C7: a concrete valid-timezone request in
degraded mode gets the mock meeting id and the degraded-mode message. -/
theorem c7_witness :
    (createMeetingEndpoint false (Except.ok "evt-1") "1700000000.123456"
      "UTC").success = true ∧
    (createMeetingEndpoint false (Except.ok "evt-1") "1700000000.123456"
      "UTC").meetingId = some ("mock_meeting_" ++ "1700000000.123456") ∧
    (createMeetingEndpoint false (Except.ok "evt-1") "1700000000.123456"
      "UTC").message =
      "Meeting created successfully" ++
        " (Calendar service is not available - using mock meeting ID)" :=
  c7_amended (Except.ok "evt-1") "1700000000.123456" "UTC" (by decide)

/-- Characterization of the base date computed by `create_recurring_event`:
it is strictly after the anchor, at most seven days later, and has the
target weekday.  (Strictness is the `days_ahead <= 0` bump of
`google_calendar_service.py` line 206.) -/
lemma recurringBaseDate_spec (a t : Int) (h0 : 0 ≤ t) (h7 : t < 7) :
    a < recurringBaseDate a t ∧ recurringBaseDate a t ≤ a + 7 ∧
    dateWeekday (recurringBaseDate a t) = t := by
  simp only [recurringBaseDate, dateWeekday]
  split_ifs with h <;> refine ⟨?_, ?_, ?_⟩ <;> omega

/-- No date strictly between the anchor and the base date has the target
weekday: the base date is the first matching date after the anchor. -/
lemma recurringBaseDate_min (a t d : Int) (h0 : 0 ≤ t) (h7 : t < 7)
    (hd1 : a < d) (hd2 : d < recurringBaseDate a t) : dateWeekday d ≠ t := by
  simp only [recurringBaseDate, dateWeekday] at hd2 ⊢
  split_ifs at hd2 with h <;> omega

/-- The first date emitted by the week loop is the week-0 occurrence of the
first preferred day, for any positive number of weeks. -/
lemma recurringDatesAux_head (base : Int) (d : Int) (ds : List Int) :
    ∀ w, 0 < w → (recurringDatesAux base (d :: ds) w).head? =
      some (occurrenceDate base d 0) := by
  intro w
  induction w with
  | zero => intro h; exact absurd h (Nat.lt_irrefl 0)
  | succ k ih =>
    intro _
    cases k with
    | zero =>
      simp [recurringDatesAux, weekOccurrences]
    | succ m =>
      have hh := ih (Nat.succ_pos m)
      simp only [recurringDatesAux] at hh ⊢
      cases haux : recurringDatesAux base (d :: ds) m ++
          weekOccurrences base (d :: ds) m with
      | nil => rw [haux] at hh; cases hh
      | cons x xs =>
        rw [haux] at hh
        rw [List.cons_append]
        simp only [List.head?_cons] at hh ⊢
        exact hh

/-- At week 0 the occurrence of the day the base date was aligned to is the
base date itself (`days_ahead` is `0` and the inner loop's strict `< 0`
comparison leaves it, `google_calendar_service.py` lines 215-218). -/
lemma occurrenceDate_base (base t : Int) (hwd : dateWeekday base = t) :
    occurrenceDate base t 0 = base := by
  simp only [occurrenceDate, hwd]
  norm_num

/-- Counterexample to C8: with the anchor on a Monday (date 0) and
`preferred_days[0] = Monday`, the first emitted occurrence is date 7 — one
week later — while the next calendar date on/after the anchor matching
Monday is the anchor itself (date 0). -/
theorem c8_counterexample :
    (recurringEventDates 0 [0] 1).head? = some 7 ∧
    nextOnOrAfterDate 0 0 = 0 ∧ (7 : Int) ≠ 0 := by
  decide

/-- Claim C8, amended: for every anchor date and non-empty preferred-days
list, the first occurrence the recurring planner emits for week 0 falls on
the next calendar date strictly after the anchor date whose weekday matches
`preferred_days[0]` (so an anchor already lying on that weekday is pushed a
full week out). -/
theorem c8_amended (anchor target : Int) (days : List Int) (weeks : Nat)
    (h0 : 0 ≤ target) (h7 : target < 7) (hd : days.head? = some target)
    (hw : 0 < weeks) :
    ∃ e, (recurringEventDates anchor days weeks).head? = some e ∧
      anchor < e ∧ e ≤ anchor + 7 ∧ dateWeekday e = target ∧
      ∀ d, anchor < d → d < e → dateWeekday d ≠ target := by
  cases days with
  | nil => cases hd
  | cons d0 ds =>
    have hd0 : d0 = target := by
      simpa using hd
    subst hd0
    have hspec := recurringBaseDate_spec anchor d0 h0 h7
    refine ⟨recurringBaseDate anchor d0, ?_, hspec.1, hspec.2.1, hspec.2.2,
      fun d hd1 hd2 => recurringBaseDate_min anchor d0 d h0 h7 hd1 hd2⟩
    unfold recurringEventDates
    rw [show (d0 :: ds).headD 0 = d0 from rfl]
    rw [recurringDatesAux_head (recurringBaseDate anchor d0) d0 ds weeks hw]
    rw [occurrenceDate_base (recurringBaseDate anchor d0) d0 hspec.2.2]

/-- Witness for the amended C8: anchor Monday (date 0), preferred days
Wednesday then Friday, four weeks — the first emitted occurrence is the
strictly-next Wednesday. -/
theorem c8_witness :
    ∃ e, (recurringEventDates 0 [2, 4] 4).head? = some e ∧
      (0 : Int) < e ∧ e ≤ 0 + 7 ∧ dateWeekday e = 2 ∧
      ∀ d, (0 : Int) < d → d < e → dateWeekday d ≠ 2 :=
  c8_amended 0 2 [2, 4] 4 (by decide) (by decide) rfl (by decide)

/-- Counterexample to C9: the slot finder starts searching at the current
time (`datetime.now`, `scheduler_agent.py` line 104), so two calls with
identical participants, duration and timezone against the same unchanged
busy-interval source (here: always free) return different slots when the
observed current time differs — Monday 10:00 versus Monday 10:30. -/
theorem c9_counterexample :
    findNextAvailableTime false emptyFetch ["alice@example.com"] 30 36000 =
      FindResult.success 36000 ∧
    findNextAvailableTime false emptyFetch ["alice@example.com"] 30 37800 =
      FindResult.success 37800 ∧
    findNextAvailableTime false emptyFetch ["alice@example.com"] 30 36000 ≠
      findNextAvailableTime false emptyFetch ["alice@example.com"] 30 37800
    := by
  decide

/-- Claim C9, amended: two slot-finder calls with identical inputs, an
unchanged busy-interval source, and the same observed current time yield
the same slot — the search is deterministic once the call time is fixed,
but the call time is an implicit input. -/
theorem c9_amended (calendarAvailable : Bool)
    (fetch : Int → Int → Except String FreeBusy)
    (participants : List String) (dur : Int) (now1 now2 : Nat)
    (h : now1 = now2) :
    findNextAvailableTime calendarAvailable fetch participants dur now1 =
    findNextAvailableTime calendarAvailable fetch participants dur now2 := by
  rw [h]

/-- Witness for the amended C9: two calls observing the same current time
agree. -/
theorem c9_witness :
    findNextAvailableTime false emptyFetch ["alice@example.com"] 30 36000 =
    findNextAvailableTime false emptyFetch ["alice@example.com"] 30 36000 :=
  c9_amended false emptyFetch ["alice@example.com"] 30 36000 36000 rfl

/-- Claim C10: whenever the free/busy fetch or its parsing raises (not only
when the gateway was unavailable at construction), `_check_availability`
returns `True`, so the candidate is treated as available for every
participant; concretely, a search whose fetch always raises returns its
first business-hour candidate as the chosen slot even though the busy
source's reported interval 35000-37000 overlaps that slot. -/
theorem c10_fetch_error_assumes_available :
    (∀ (participants : List String) (s e : Int) (msg : String),
      checkAvailability true (fun _ _ => Except.error msg)
        participants s e = true) ∧
    findNextAvailableTime true (fun _ _ => Except.error "HttpError")
      ["alice@example.com"] 30 36000 = FindResult.success 36000 ∧
    checkAvailabilityFetched ["alice@example.com"] 36000 37800
      [("alice@example.com", [{ start := 35000, stop := 37000 }])] = false
    := by
  refine ⟨fun participants s e msg => rfl, by decide, by decide⟩
